import Mathlib

/-!
Shallow embedding of the Facets control-plane MCP server
(`src/utils/client_utils.py`, `src/tools/env_tools.py`,
`src/tools/project_tools.py`, `src/tools/env_override_tool.py`)
together with proofs about its session/configuration layer, deployment
guards, model converter, variable workflow and override removal.

Python strings become `String`, Python `None` becomes `Option.none`,
Python dictionaries become association lists, and every fallible code
path returns `Except Err`.  Remote HTTP calls are modelled by an `Api`
oracle; each tool additionally returns the list of remote calls it
issued, so "no remote call is attempted" is the statement that this
list is empty.
-/

/-- JSON-RPC error code `INVALID_REQUEST` from `mcp.types`. -/
def INVALID_REQUEST : Int := -32600

/-- Error taxonomy of the embedded code: `McpError(ErrorData(code, message))`,
plain `ValueError(message)`, Python `AttributeError` and `IndexError`. -/
inductive Err where
  | mcpError (code : Int) (message : String)
  | valueError (message : String)
  | attributeError (message : String)
  | indexError (message : String)
  deriving DecidableEq, Repr

/-- A JSON document (the `overrides` payloads of `env_override_tool.py`). -/
inductive Json where
  | null
  | bool (b : Bool)
  | num (n : Int)
  | str (s : String)
  | arr (xs : List Json)
  | obj (kvs : List (String × Json))
  deriving Repr

/-- Python truthiness (`if not overrides`, `if not parent_obj`). -/
def Json.falsy : Json → Bool
  | .null => true
  | .bool b => !b
  | .num n => n == 0
  | .str s => s == ""
  | .arr xs => xs.isEmpty
  | .obj kvs => kvs.isEmpty

/-- Helper for `splitPath`: accumulate characters until a `'.'`. -/
def splitDots : List Char → String → List String
  | [], acc => [acc]
  | c :: rest, acc =>
    if c = '.' then acc :: splitDots rest "" else splitDots rest (acc.push c)

/-- Python `property_path.split(".")` (single-character separator). -/
def splitPath (s : String) : List String :=
  splitDots s.toList ""

example : splitPath "spec.replicas" = ["spec", "replicas"] := by decide
example : splitPath "spec" = ["spec"] := by decide
example : splitPath "spec.resources.limits.memory" = ["spec", "resources", "limits", "memory"] := by decide

/-! ## Wire data model (generated swagger client / pydantic models) -/

/-- `pydantic_generated.variablesmodel.VariablesModel`: the tool-facing
variable payload (`description`, `secret`, `value`, `global`). -/
structure VariablesModel where
  description : Option String := none
  secret : Option Bool := none
  value : Option String := none
  isGlobal : Option Bool := none
  deriving DecidableEq, Repr

/-- `swagger_client.models.stack.Stack` (a project): name, source-control
branch and the cached variables mapping `cluster_variables_meta`. -/
structure Stack where
  name : String
  branch : Option String := none
  cluster_variables_meta : List (String × VariablesModel) := []
  deriving DecidableEq, Repr

/-- `swagger_client.models.abstract_cluster.AbstractCluster` (an
environment): the fields the embedded tools touch.  `cloud` stands for
the remaining pass-through attributes ("the rest of the environment's
fields"). -/
structure AbstractCluster where
  id : String
  name : String
  cluster_state : Option String := none
  cloud : Option String := none
  deriving DecidableEq, Repr

/-- Entry of `get_cluster_metadata_by_stack_using_get`: environment id
plus its lifecycle state. -/
structure ClusterMetadata where
  cluster_id : String
  cluster_state : Option String := none
  deriving DecidableEq, Repr

/-- `pydantic_generated.abstractclustermodel.AbstractClusterModel`: the
tool-facing environment schema.  All fields are non-null (the converter
fills absent wire values with zero values). -/
structure AbstractClusterModel where
  id : String
  name : String
  cluster_state : String
  cloud : String
  deriving DecidableEq, Repr

/-- `swagger_client.models.deployment_log.DeploymentLog` (a release). -/
structure DeploymentLog where
  id : String
  status : Option String := none
  deriving DecidableEq, Repr

/-- `swagger_client.models.list_deployments_wrapper.ListDeploymentsWrapper`. -/
structure ListDeploymentsWrapper where
  deployments : List DeploymentLog
  deriving DecidableEq, Repr

/-- A hotfix target (`hotfixResources` entries). -/
structure HotfixResource where
  resource_type : String
  resource_name : String
  deriving DecidableEq, Repr

/-- `pydantic_generated.deploymentrequestmodel.DeploymentRequestModel`:
the tool-facing deployment request. -/
structure DeploymentRequestModel where
  release_type : String
  force_release : Option Bool := none
  allow_destroy : Option Bool := none
  with_refresh : Option Bool := none
  hotfix_resources : Option (List HotfixResource) := none
  override_build_steps : Option (List String) := none
  lock_id : Option String := none
  deriving DecidableEq, Repr

/-- `swagger_client.models.deployment_request.DeploymentRequest`: the
wire deployment request.  `DeploymentRequest()` leaves every field at
its default `None`. -/
structure DeploymentRequest where
  release_type : Option String := none
  force_release : Option Bool := none
  allow_destroy : Option Bool := none
  with_refresh : Option Bool := none
  hotfix_resources : Option (List HotfixResource) := none
  override_build_steps : Option (List String) := none
  lock_id : Option String := none
  deriving DecidableEq, Repr

/-! ## Remote API oracle and call log -/

/-- One outbound REST call, as issued by the tool wrappers.  A tool's
second component is the list of these calls in order; the precondition
claims state that this list is empty when the session gate fails. -/
inductive ApiCall where
  | getClusters (stackName : String)
  | getClusterMetadata (stackName : String)
  | getDeployments (clusterId : String)
  | getDeployment (clusterId : String) (releaseId : String)
  | getDeploymentLogs (clusterId : String) (releaseId : String)
  | createDeployment (clusterId : String) (request : DeploymentRequest)
  | getResourceOverrideObject (clusterId : String) (resourceName : String) (resourceType : String)
  | postResourceOverrideObject (clusterId : String) (resourceName : String)
      (resourceType : String) (overrides : Option Json) (doSync : Bool)
  | getStack (name : String)
  | addVariables (stackName : String) (names : List String)
  | updateVariables (stackName : String) (names : List String)
  | deleteVariables (stackName : String) (names : List String)
  deriving Repr

/-- Behaviour of the remote control plane: what each endpoint returns.
The embedding threads no failure through the oracle; remote failures
are out of scope of the claims proved here. -/
structure Api where
  clusters : String → List AbstractCluster
  clusterMetadata : String → List ClusterMetadata
  deployments : String → ListDeploymentsWrapper
  deployment : String → String → DeploymentLog
  deploymentLogs : String → String → List DeploymentLog
  createDeployment : String → DeploymentRequest → DeploymentLog
  resourceOverrides : String → String → String → Option Json
  postOverride : String → String → String → Option Json → Bool → Option Json
  stack : String → Stack

/-! ## Session / context store (`ClientUtils` state) -/

/-- The process-wide session store: at most one current project and one
current environment. -/
structure Session where
  currentProject : Option Stack := none
  currentCluster : Option AbstractCluster := none
  deriving Repr

/-- `ClientUtils.get_current_project`. -/
def get_current_project (s : Session) : Option Stack :=
  s.currentProject

/-- `ClientUtils.set_current_project`. -/
def set_current_project (s : Session) (p : Stack) : Session :=
  { s with currentProject := some p }

/-- Modelled from the spec: `ClientUtils.get_current_cluster` is called
throughout `src/tools` but its definition is not under `src/`; spec
§4.3 gives `getCurrentEnvironment() → Environment | empty`. -/
def get_current_cluster (s : Session) : Option AbstractCluster :=
  s.currentCluster

/-- Modelled from the spec: `ClientUtils.set_current_cluster` (spec §4.3
`setCurrentEnvironment(e)`, last-write-wins). -/
def set_current_cluster (s : Session) (c : AbstractCluster) : Session :=
  { s with currentCluster := some c }

/-- Modelled from the spec: `ClientUtils.is_current_cluster_and_project_set`
is called by every environment-scoped tool but its definition is not
under `src/`; spec §4.3: "both must be non-empty". -/
def is_current_cluster_and_project_set (s : Session) : Bool :=
  s.currentProject.isSome && s.currentCluster.isSome

/-- The uniform precondition message raised by environment-scoped and
resource-scoped tools when the session gate fails. -/
def precondMsg : String :=
  "No current project or environment is set. Please set a project using project_tools.use_project() and an environment using env_tools.use_environment()."

/-! ## Configuration resolver and API client factory (`client_utils.py`) -/

/-- The four environment variables read by `ClientUtils.initialize`
(`os.getenv` with default `""`; the empty string means "not set"). -/
structure EnvVars where
  profile : String := ""
  cp_url : String := ""
  username : String := ""
  token : String := ""
  deriving DecidableEq, Repr

/-- One section of `~/.facets/credentials`; `none` models a key missing
from the section (so `config.get(..., fallback=...)` falls back). -/
structure CredSection where
  control_plane_url : Option String := none
  username : Option String := none
  token : Option String := none
  deriving DecidableEq, Repr

/-- The INI credentials file: sections keyed by profile name. -/
structure CredFile where
  sections : List (String × CredSection) := []
  deriving DecidableEq, Repr

/-- The process-wide client configuration slots
(`ClientUtils.cp_url/username/token`, all `None` until
`set_client_config` runs). -/
structure ClientState where
  cp_url : Option String := none
  username : Option String := none
  token : Option String := none
  deriving DecidableEq, Repr

/-- `ClientUtils.set_client_config`. -/
def set_client_config (st : ClientState) (url user tok : String) : ClientState :=
  { st with cp_url := some url, username := some user, token := some tok }

/-- The authenticated client handle built by `ClientUtils.get_client`. -/
structure ApiClientConfig where
  host : String
  username : String
  password : String
  deriving DecidableEq, Repr

/-- `ClientUtils.get_client`: fails unless all three configuration
slots were set. -/
def get_client (st : ClientState) : Except Err ApiClientConfig :=
  match st.cp_url, st.username, st.token with
  | some url, some user, some tok => .ok { host := url, username := user, password := tok }
  | _, _, _ => .error (Err.valueError "Client configuration not set. Call set_client_config first.")

/-- Lines 53–68 of `client_utils.py` (`ClientUtils.initialize` before its
final completeness check): read the environment variables and, when a
profile is named and some variable is missing, merge in that profile's
credentials-file section via `config.get(profile, key, fallback=envValue)`. -/
def resolve_credentials (env : EnvVars) (file : CredFile) :
    Except Err (String × String × String) :=
  let profile := env.profile
  let cp_url := env.cp_url
  let username := env.username
  let token := env.token
  if profile ≠ "" ∧ ¬(cp_url ≠ "" ∧ username ≠ "" ∧ token ≠ "") then
    match file.sections.lookup profile with
    | some sec =>
      .ok (sec.control_plane_url.getD cp_url, sec.username.getD username, sec.token.getD token)
    | none => .error (Err.valueError s!"Profile '{profile}' not found in credentials file.")
  else
    .ok (cp_url, username, token)

/-- `ClientUtils.initialize` (lines 43–75): resolve credentials, fail if
any of the three fields is still empty, otherwise store the client
configuration.  On failure the `ClientState` is returned unchanged. -/
def initialize_config (st : ClientState) (env : EnvVars) (file : CredFile) :
    ClientState × Except Err (String × String × String × String) :=
  match resolve_credentials env file with
  | .error e => (st, .error e)
  | .ok (cp_url, username, token) =>
    if ¬(cp_url ≠ "" ∧ username ≠ "" ∧ token ≠ "") then
      (st, .error (Err.valueError "Control plane URL, username, and token are required."))
    else
      (set_client_config st cp_url username token, .ok (cp_url, username, token, env.profile))

/-! ## Environment tools (`env_tools.py`) -/

/-- `_convert_swagger_environment_to_pydantic` (lines 16–64), specialised
to the concrete `AbstractClusterModel` fields: every field is pulled
from the wire model and a `None` is replaced by the string zero value
`""` (all four embedded fields are string-typed). -/
def convert_swagger_environment_to_pydantic (e : AbstractCluster) : AbstractClusterModel :=
  { id := e.id
    name := e.name
    cluster_state := e.cluster_state.getD ""
    cloud := e.cloud.getD "" }

/-- Lines 417–438 of `env_tools.py` inside
`create_release_for_current_environment`: build the wire
`DeploymentRequest` from the tool-facing properties.
`DeploymentRequest(override_build_steps=[])` starts with
`override_build_steps = []` and every other field at `None`; then the
six copied fields are assigned.  `lock_id` is never assigned. -/
def build_swagger_request (properties : DeploymentRequestModel) : DeploymentRequest :=
  let req : DeploymentRequest := { override_build_steps := some [] }
  let req := match properties.override_build_steps with
    | some v => { req with override_build_steps := some v }
    | none => req
  let req := match properties.hotfix_resources with
    | some v => { req with hotfix_resources := some v }
    | none => req
  let req := { req with
    release_type := some properties.release_type
    force_release := properties.force_release }
  let req := match properties.allow_destroy with
    | some v => { req with allow_destroy := some v }
    | none => req
  let req := match properties.with_refresh with
    | some v => { req with with_refresh := some v }
    | none => req
  req

/-- `create_release_for_current_environment` (lines 390–441): build the
wire request and post it against the current environment.  The source
reads `ClientUtils.get_current_cluster().id` without a session gate; on
an unset environment Python raises `AttributeError`. -/
def create_release_for_current_environment (s : Session) (api : Api)
    (properties : DeploymentRequestModel) : Except Err String × List ApiCall :=
  match s.currentCluster with
  | some cluster =>
    let req := build_swagger_request properties
    (.ok (api.createDeployment cluster.id req).id, [ApiCall.createDeployment cluster.id req])
  | none =>
    (.error (Err.attributeError "NoneType object has no attribute id"), [])

/-- `launch_environment` (lines 444–480). -/
def launch_environment (s : Session) (api : Api) (properties : DeploymentRequestModel) :
    Except Err String × List ApiCall :=
  if properties.release_type ≠ "LAUNCH" then
    (.error (Err.mcpError INVALID_REQUEST "Release type must be LAUNCH"), [])
  else
    create_release_for_current_environment s api properties

/-- `destroy_environment` (lines 483–519): guard, then force
`force_release = True` before delegating. -/
def destroy_environment (s : Session) (api : Api) (properties : DeploymentRequestModel) :
    Except Err String × List ApiCall :=
  if properties.release_type ≠ "DESTROY" then
    (.error (Err.mcpError INVALID_REQUEST "Release type must be DESTROY"), [])
  else
    create_release_for_current_environment s api { properties with force_release := some true }

/-- `create_selective_release_plan_for_environment` (lines 522–568). -/
def create_selective_release_plan_for_environment (s : Session) (api : Api)
    (properties : DeploymentRequestModel) : Except Err String × List ApiCall :=
  if properties.release_type ≠ "HOTFIX_PLAN" then
    (.error (Err.mcpError INVALID_REQUEST "Release type must be HOTFIX_PLAN"), [])
  else if properties.hotfix_resources = none then
    (.error (Err.mcpError INVALID_REQUEST "Selective release resources must be provided"), [])
  else
    create_release_for_current_environment s api properties

/-- `create_selective_release_for_environment` (lines 569–620). -/
def create_selective_release_for_environment (s : Session) (api : Api)
    (properties : DeploymentRequestModel) : Except Err String × List ApiCall :=
  if properties.release_type ≠ "HOTFIX" then
    (.error (Err.mcpError INVALID_REQUEST "Release type must be HOTFIX"), [])
  else if properties.hotfix_resources = none then
    (.error (Err.mcpError INVALID_REQUEST "Selective release resources must be provided"), [])
  else
    create_release_for_current_environment s api properties

/-- `create_full_release_for_environment` (lines 622–659). -/
def create_full_release_for_environment (s : Session) (api : Api)
    (properties : DeploymentRequestModel) : Except Err String × List ApiCall :=
  if properties.release_type ≠ "RELEASE" then
    (.error (Err.mcpError INVALID_REQUEST "Release type must be RELEASE"), [])
  else
    create_release_for_current_environment s api properties

/-- `create_full_release_plan_for_environment` (lines 661–696). -/
def create_full_release_plan_for_environment (s : Session) (api : Api)
    (properties : DeploymentRequestModel) : Except Err String × List ApiCall :=
  if properties.release_type ≠ "FULL_PLAN" then
    (.error (Err.mcpError INVALID_REQUEST "Release type must be FULL_PLAN"), [])
  else
    create_release_for_current_environment s api properties

/-- `create_custom_release_for_environment` (lines 698–736): a single
combined guard. -/
def create_custom_release_for_environment (s : Session) (api : Api)
    (properties : DeploymentRequestModel) : Except Err String × List ApiCall :=
  if properties.release_type ≠ "CUSTOM" ∨ properties.override_build_steps = none then
    (.error (Err.mcpError INVALID_REQUEST
      "Release type must be CUSTOM and override build steps must be provided"), [])
  else
    create_release_for_current_environment s api properties

/-- `unlock_state_of_environment` (lines 739–769): a single combined
guard; note that the `lock_id` the guard requires is never copied into
the wire request by `create_release_for_current_environment`. -/
def unlock_state_of_environment (s : Session) (api : Api)
    (properties : DeploymentRequestModel) : Except Err String × List ApiCall :=
  if properties.release_type ≠ "UNLOCK_STATE" ∨ properties.lock_id = none then
    (.error (Err.mcpError INVALID_REQUEST
      "Release type must be UNLOCK_STATE and lockId must be provided"), [])
  else
    create_release_for_current_environment s api properties

/-- `scale_up_environment` (lines 771–801). -/
def scale_up_environment (s : Session) (api : Api) (properties : DeploymentRequestModel) :
    Except Err String × List ApiCall :=
  if properties.release_type ≠ "SCALE_UP" then
    (.error (Err.mcpError INVALID_REQUEST "Release type must be SCALE_UP"), [])
  else
    create_release_for_current_environment s api properties

/-- `scale_down_environment` (lines 803–833). -/
def scale_down_environment (s : Session) (api : Api) (properties : DeploymentRequestModel) :
    Except Err String × List ApiCall :=
  if properties.release_type ≠ "SCALE_DOWN" then
    (.error (Err.mcpError INVALID_REQUEST "Release type must be SCALE_DOWN"), [])
  else
    create_release_for_current_environment s api properties

/-- `get_releases_of_current_environment` (lines 252–275): gate on the
session store, then fetch the deployments of the current environment.
The `match` on the two slots is the `is_current_cluster_and_project_set`
check of the source: it succeeds exactly when both are set. -/
def get_releases_of_current_environment (s : Session) (api : Api) :
    Except Err ListDeploymentsWrapper × List ApiCall :=
  match s.currentProject, s.currentCluster with
  | some _, some cluster =>
    (.ok (api.deployments cluster.id), [ApiCall.getDeployments cluster.id])
  | _, _ => (.error (Err.mcpError INVALID_REQUEST precondMsg), [])

/-- `get_release_details` (lines 277–300). -/
def get_release_details (s : Session) (api : Api) (release_id : String) :
    Except Err DeploymentLog × List ApiCall :=
  match s.currentProject, s.currentCluster with
  | some _, some cluster =>
    (.ok (api.deployment cluster.id release_id), [ApiCall.getDeployment cluster.id release_id])
  | _, _ => (.error (Err.mcpError INVALID_REQUEST precondMsg), [])

/-- `get_release_logs_of_current_environment` (lines 302–325); its gate
message talks about "cluster" instead of "environment". -/
def get_release_logs_of_current_environment (s : Session) (api : Api) (release_id : String) :
    Except Err (List DeploymentLog) × List ApiCall :=
  match s.currentProject, s.currentCluster with
  | some _, some cluster =>
    (.ok (api.deploymentLogs cluster.id release_id),
      [ApiCall.getDeploymentLogs cluster.id release_id])
  | _, _ =>
    (.error (Err.mcpError INVALID_REQUEST
      "No current project or cluster is set. Please set a project using project_tools.use_project() and a cluster using env_tools.use_cluster()."), [])

/-- `get_current_environment_details` (lines 196–249): gate, refetch the
project's environments, fetch the cluster metadata, find the current
environment by id, merge the metadata `cluster_state` of the first
matching entry into the refetched environment, store it back into the
session and return its tool-facing conversion. -/
def get_current_environment_details (s : Session) (api : Api) :
    Except Err AbstractClusterModel × Session × List ApiCall :=
  match s.currentProject, s.currentCluster with
  | some project, some current =>
    let environments := api.clusters project.name
    let cluster_metadata := api.clusterMetadata project.name
    let calls := [ApiCall.getClusters project.name, ApiCall.getClusterMetadata project.name]
    match environments.find? (fun e => e.id == current.id) with
    | some env =>
      let refreshed :=
        match cluster_metadata.find? (fun md => md.cluster_id == env.id) with
        | some md => { env with cluster_state := md.cluster_state }
        | none => env
      (.ok (convert_swagger_environment_to_pydantic refreshed),
        set_current_cluster s refreshed, calls)
    | none =>
      let cid := current.id
      let pname := project.name
      (.error (Err.mcpError INVALID_REQUEST
        s!"Environment with ID {cid} no longer exists in project {pname}"), s, calls)
  | _, _ => (.error (Err.mcpError INVALID_REQUEST precondMsg), s, [])

/-- `get_active_releases_of_current_environment` (lines 327–352):
refresh the environment, require the `RUNNING` state, then keep the
releases whose status is `RUNNING` (the source's
`if len(active) > 0 else []` is kept literally). -/
def get_active_releases_of_current_environment (s : Session) (api : Api) :
    Except Err (List DeploymentLog) × Session × List ApiCall :=
  match get_current_environment_details s api with
  | (.error e, s', calls) => (.error e, s', calls)
  | (.ok environment, s', calls) =>
    if environment.cluster_state ≠ "RUNNING" then
      let ename := environment.name
      (.error (Err.mcpError INVALID_REQUEST s!"Environment \"{ename}\" is not in running state"),
        s', calls)
    else
      match get_releases_of_current_environment s' api with
      | (.error e, calls2) => (.error e, s', calls ++ calls2)
      | (.ok deployments, calls2) =>
        let active_releases := deployments.deployments.filter (fun r => r.status == some "RUNNING")
        (.ok (if active_releases.length > 0 then active_releases else []), s', calls ++ calls2)

/-- `get_latest_release_of_current_environment` (lines 376–388): the
source returns `deployments.deployments[-1]`; on an empty list Python
raises `IndexError` instead of returning an empty result. -/
def get_latest_release_of_current_environment (s : Session) (api : Api) :
    Except Err DeploymentLog × List ApiCall :=
  match get_releases_of_current_environment s api with
  | (.error e, calls) => (.error e, calls)
  | (.ok deployments, calls) =>
    match deployments.deployments.getLast? with
    | some d => (.ok d, calls)
    | none => (.error (Err.indexError "list index out of range"), calls)

/-! ## Project / variable tools (`project_tools.py`) -/

/-- `get_secrets_and_vars` (lines 64–80): the cached variable mapping of
the current project; not re-fetched from the server. -/
def get_secrets_and_vars (s : Session) : Except Err (List (String × VariablesModel)) :=
  match s.currentProject with
  | none => .error (Err.valueError "No current project is set.")
  | some p => .ok p.cluster_variables_meta

/-- `refresh_current_project` (lines 43–61): refetch the project by name
and replace the cached copy. -/
def refresh_current_project (s : Session) (api : Api) :
    Except Err Stack × Session × List ApiCall :=
  match s.currentProject with
  | none => (.error (Err.valueError "No current project is set."), s, [])
  | some p =>
    let refreshed := api.stack p.name
    (.ok refreshed, set_current_project s refreshed, [ApiCall.getStack p.name])

/-- `create_variables` (lines 84–125): fail if any submitted name is
already present in the cached mapping (naming the offending names),
otherwise post the batch and refresh the cached project. -/
def create_variables (s : Session) (api : Api)
    (vars : List (String × VariablesModel)) :
    Except Err Unit × Session × List ApiCall :=
  match s.currentProject with
  | none => (.error (Err.valueError "No current project is set."), s, [])
  | some curr =>
    let current_vars := curr.cluster_variables_meta.map Prod.fst
    let existing_vars := (vars.map Prod.fst).filter (fun n => current_vars.contains n)
    if existing_vars.isEmpty then
      let refreshed := api.stack curr.name
      (.ok (), set_current_project s refreshed,
        [ApiCall.addVariables curr.name (vars.map Prod.fst), ApiCall.getStack curr.name])
    else
      (.error (Err.valueError
        ("The following variables already exist: " ++ String.intercalate ", " existing_vars)),
        s, [])

/-- `update_variables` (lines 128–168): fail if any submitted name is
absent from the cached mapping, otherwise put the batch and refresh. -/
def update_variables (s : Session) (api : Api)
    (vars : List (String × VariablesModel)) :
    Except Err Unit × Session × List ApiCall :=
  match s.currentProject with
  | none => (.error (Err.valueError "No current project is set."), s, [])
  | some curr =>
    let current_vars := curr.cluster_variables_meta.map Prod.fst
    let missing_vars := (vars.map Prod.fst).filter (fun n => !current_vars.contains n)
    if missing_vars.isEmpty then
      let refreshed := api.stack curr.name
      (.ok (), set_current_project s refreshed,
        [ApiCall.updateVariables curr.name (vars.map Prod.fst), ApiCall.getStack curr.name])
    else
      (.error (Err.valueError
        ("The following variables do not exist: " ++ String.intercalate ", " missing_vars)),
        s, [])

/-- `delete_variables` (lines 171–201) of `project_tools.py`. -/
def delete_variables (s : Session) (api : Api) (variable_names : List String) :
    Except Err Unit × Session × List ApiCall :=
  match s.currentProject with
  | none => (.error (Err.valueError "No current project is set."), s, [])
  | some curr =>
    let current_vars := curr.cluster_variables_meta.map Prod.fst
    let missing_vars := variable_names.filter (fun n => !current_vars.contains n)
    if missing_vars.isEmpty then
      let refreshed := api.stack curr.name
      (.ok (), set_current_project s refreshed,
        [ApiCall.deleteVariables curr.name variable_names, ApiCall.getStack curr.name])
    else
      (.error (Err.valueError
        ("The following variables do not exist: " ++ String.intercalate ", " missing_vars)),
        s, [])

/-! ## Resource override tools (`env_override_tool.py`) -/

/-- Python `key in d` on a dict (first matching key of the
association list). -/
def lookupKey : List (String × Json) → String → Option Json
  | [], _ => none
  | (k, v) :: rest, key => if k == key then some v else lookupKey rest key

/-- Python `del d[key]`: drop the (unique) matching entry. -/
def eraseKey : List (String × Json) → String → List (String × Json)
  | [], _ => []
  | (k, v) :: rest, key => if k == key then rest else (k, v) :: eraseKey rest key

/-- Replace the value stored under an existing key, keeping the order. -/
def setKey : List (String × Json) → String → Json → List (String × Json)
  | [], _, _ => []
  | (k, v) :: rest, key, nv =>
    if k == key then (k, nv) :: rest else (k, v) :: setKey rest key nv

/-- Navigate a dotted path through nested objects
(`current_level = current_level[part]`); `none` when a part is missing
or a non-object is reached. -/
def getPath : Json → List String → Option Json
  | j, [] => some j
  | Json.obj kvs, p :: rest =>
    match lookupKey kvs p with
    | some child => getPath child rest
    | none => none
  | _, _ :: _ => none

/-- Apply `f` to the object at the end of `path` and rebuild the
document (functional rendering of the in-place dict mutation). -/
def modifyAtPath (j : Json) (path : List String)
    (f : List (String × Json) → List (String × Json)) : Option Json :=
  match path, j with
  | [], Json.obj kvs => some (Json.obj (f kvs))
  | [], _ => none
  | p :: rest, Json.obj kvs =>
    match lookupKey kvs p with
    | some child => (modifyAtPath child rest f).map (fun c => Json.obj (setKey kvs p c))
    | none => none
  | _ :: _, _ => none

/-- `del` of `path_parts[i]` from the object at `path_parts[:i]` during
the cleanup loop (the navigation cannot fail there; `getD` keeps the
function total). -/
def eraseAtParent (doc : Json) (parentPath : List String) (key : String) : Json :=
  (modifyAtPath doc parentPath (fun kvs => eraseKey kvs key)).getD doc

/-- One iteration of the cleanup loop of `remove_resource_override`
(lines 225–237): if the object at `path_parts[:i+1]` became empty,
delete it from its parent. -/
def cleanupStep (parts : List String) (doc : Json) (i : Nat) : Json :=
  match getPath doc (parts.take (i + 1)) with
  | some v => if v.falsy then eraseAtParent doc (parts.take i) (parts.getD i "") else doc
  | none => doc

/-- The cleanup loop `for i in range(len(path_parts) - 2, -1, -1)`:
walk the ancestors of the removed property bottom-up and delete the
ones that became empty. -/
def cleanupEmptyAncestors (doc : Json) (parts : List String) : Json :=
  ((List.range (parts.length - 1)).reverse).foldl (cleanupStep parts) doc

/-- Lines 204–237 of `remove_resource_override`: traverse to the parent
of the property (`none` when a part of the path is missing, the
source's "Property path not found" outcome), delete the property, then
run the ancestor cleanup. -/
def removeAtPath (doc : Json) (parts : List String) : Option Json :=
  match parts with
  | [] => none
  | _ :: _ =>
    let parentPath := parts.dropLast
    let last_key := (parts.getLast?).getD ""
    match getPath doc parentPath with
    | some (Json.obj kvs) =>
      if (lookupKey kvs last_key).isSome then
        (modifyAtPath doc parentPath (fun l => eraseKey l last_key)).map
          (fun d => cleanupEmptyAncestors d parts)
      else none
    | _ => none

/-- What `remove_resource_override` decides to do once it has the
current overrides document and a property path. -/
inductive OverrideAction where
  | deleteAll
  | writeBack (doc : Json)
  | notFound
  deriving Repr

/-- Lines 200–261 of `remove_resource_override`: remove the property at
the dotted path; if the whole document became empty, delete all
overrides, else write the partial document back. -/
def remove_override_decision (overrides : Json) (property_path : String) : OverrideAction :=
  let parts := splitPath property_path
  match removeAtPath overrides parts with
  | none => .notFound
  | some result => if result.falsy then .deleteAll else .writeBack result

/-- Message built by `get_resource_overrides`/`remove_resource_override`
when the resource has no overrides. -/
def noOverridesMsg (resource_name resource_type env_name : String) : String :=
  s!"No overrides found for resource '{resource_name}' of type '{resource_type}' in environment '{env_name}'"

/-- Message built by `remove_resource_override` when the path is absent. -/
def pathNotFoundMsg (property_path resource_name resource_type env_name : String) : String :=
  s!"Property path '{property_path}' not found in overrides for resource '{resource_name}' of type '{resource_type}' in environment '{env_name}'"

/-- Success message of `override_resource` when the server echoed the
overrides back. -/
def appliedOverridesMsg (resource_name resource_type env_name : String) : String :=
  s!"Successfully applied overrides for resource '{resource_name}' of type '{resource_type}' in environment '{env_name}'"

/-- Success message of `override_resource` when the server returned no
override data. -/
def appliedNoDataMsg (resource_name resource_type env_name : String) : String :=
  s!"Override operation completed for resource '{resource_name}' of type '{resource_type}' in environment '{env_name}', but no override data was returned"

/-- Message of `remove_resource_override` when the document collapsed. -/
def removedAllBecauseEmptyMsg (resource_name resource_type env_name property_path : String) : String :=
  s!"Successfully removed all overrides for resource '{resource_name}' of type '{resource_type}' in environment '{env_name}' because the overrides became empty after removing '{property_path}'"

/-- Message of `remove_resource_override` on full removal. -/
def removedAllMsg (resource_name resource_type env_name : String) : String :=
  s!"Successfully removed all overrides for resource '{resource_name}' of type '{resource_type}' in environment '{env_name}'"

/-- `get_resource_overrides` (lines 11–69): gate on the session store,
fetch the override object; an absent or falsy `overrides` payload is
the "no overrides" outcome (`.ok none`), otherwise the overrides
document is returned. -/
def get_resource_overrides (s : Session) (api : Api)
    (resource_type resource_name : String) :
    Except Err (Option Json) × List ApiCall :=
  match s.currentProject, s.currentCluster with
  | some _, some cluster =>
    let fetch := ApiCall.getResourceOverrideObject cluster.id resource_name resource_type
    match api.resourceOverrides cluster.id resource_name resource_type with
    | none => (.ok none, [fetch])
    | some ov => if ov.falsy then (.ok none, [fetch]) else (.ok (some ov), [fetch])
  | _, _ => (.error (Err.valueError precondMsg), [])

/-- `override_resource` (lines 72–150): gate, then post the override
document; the returned message depends on whether the server echoed
override data back. -/
def override_resource (s : Session) (api : Api)
    (resource_type resource_name : String) (override_data : Json) (sync : Bool) :
    Except Err String × List ApiCall :=
  match s.currentProject, s.currentCluster with
  | some _, some cluster =>
    let call := ApiCall.postResourceOverrideObject cluster.id resource_name resource_type
      (some override_data) sync
    match api.postOverride cluster.id resource_name resource_type (some override_data) sync with
    | some _ => (.ok (appliedOverridesMsg resource_name resource_type cluster.name), [call])
    | none => (.ok (appliedNoDataMsg resource_name resource_type cluster.name), [call])
  | _, _ => (.error (Err.valueError precondMsg), [])

/-- `remove_resource_override` (lines 153–281): gate, fetch the current
overrides, then either report "no overrides", remove a single dotted
property (falling back to full deletion when the document collapses to
empty, delegating to `override_resource` otherwise), or — when no
path is given (Python treats an empty string like `None`) — delete all
overrides. -/
def remove_resource_override (s : Session) (api : Api)
    (resource_type resource_name : String) (property_path : Option String) (sync : Bool) :
    Except Err String × List ApiCall :=
  match s.currentProject, s.currentCluster with
  | some _, some cluster =>
    let fetch := ApiCall.getResourceOverrideObject cluster.id resource_name resource_type
    let deleteCall := ApiCall.postResourceOverrideObject cluster.id resource_name resource_type
      none sync
    match get_resource_overrides s api resource_type resource_name with
    | (.error e, calls) => (.error e, calls)
    | (.ok none, _) =>
      (.ok (noOverridesMsg resource_name resource_type cluster.name), [fetch])
    | (.ok (some overrides), _) =>
      let pp := property_path.getD ""
      if pp ≠ "" then
        match remove_override_decision overrides pp with
        | .notFound =>
          (.ok (pathNotFoundMsg pp resource_name resource_type cluster.name), [fetch])
        | .deleteAll =>
          (.ok (removedAllBecauseEmptyMsg resource_name resource_type cluster.name pp),
            [fetch, deleteCall])
        | .writeBack doc =>
          match override_resource s api resource_type resource_name doc sync with
          | (.error e, calls2) => (.error e, fetch :: calls2)
          | (.ok msg, calls2) => (.ok msg, fetch :: calls2)
      else
        (.ok (removedAllMsg resource_name resource_type cluster.name), [fetch, deleteCall])
  | _, _ => (.error (Err.valueError precondMsg), [])

/-! ## Generic model converter (`pydantic_instance_to_swagger_instance`
and the reflection-based `_convert_swagger_environment_to_pydantic`) -/

/-- The annotation types that `_convert_swagger_environment_to_pydantic`
defaults (`str`, `bool`, `int`, `float`).  Modelled from the spec: the
generated tool-facing cluster schema is not under `src/`; spec §4.4
enumerates exactly these zero values for its fields. -/
inductive FTy where
  | str
  | boolean
  | int
  | flt
  deriving DecidableEq, Repr

/-- A field value of one of the four annotation types (floats carried
as rationals; no arithmetic is performed on them). -/
inductive FVal where
  | vstr (s : String)
  | vbool (b : Bool)
  | vint (n : Int)
  | vflt (q : Rat)
  deriving DecidableEq, Repr

/-- The type-appropriate zero value substituted for an absent wire
value (lines 47–57 of `env_tools.py`). -/
def FTy.zero : FTy → FVal
  | .str => .vstr ""
  | .boolean => .vbool false
  | .int => .vint 0
  | .flt => .vflt 0

/-- One declared field of a tool-facing pydantic model: its name, its
optional wire alias (`field_info.alias`) and its annotation type. -/
structure ModelField where
  name : String
  wireAlias : Option String := none
  ty : FTy := .str
  deriving DecidableEq, Repr

/-- `field_info.alias or field_name`. -/
def aliasOrName (f : ModelField) : String :=
  f.wireAlias.getD f.name

/-- The reflection data of a generated swagger class:
`attribute_map` (swagger attribute → JSON key) and the declared
`swagger_types` attribute names. -/
structure SwaggerSchema where
  attribute_map : List (String × String) := []
  swagger_types : List String := []
  deriving DecidableEq, Repr

/-- Python `swagger_field.startswith("_")` (a one-character prefix
test, written on the character list so it evaluates in the kernel). -/
def startsWithUnderscore (s : String) : Bool :=
  match s.toList with
  | c :: _ => c = '_'
  | [] => false

/-- Lines 100–115 of `client_utils.py` (continued): map a JSON key back
to the swagger attribute it is stored under, including the fix for
renamed and reserved-word fields (`_global`, `global_`). -/
def swaggerFieldFor (sc : SwaggerSchema) (jsonKey : String) : String :=
  let reverse_alias_map := sc.attribute_map.map (fun p => (p.2, p.1))
  let swagger_field := (reverse_alias_map.lookup jsonKey).getD jsonKey
  if startsWithUnderscore swagger_field || sc.swagger_types.contains swagger_field then
    swagger_field
  else if sc.swagger_types.contains (swagger_field ++ "_") then
    swagger_field ++ "_"
  else
    swagger_field

/-- `ClientUtils.pydantic_instance_to_swagger_instance` (lines 98–117):
`inst.dict(by_alias=True, exclude_unset=True)` yields one `(alias,
value)` pair per explicitly-set field; each is stored on the swagger
instance under the attribute `swaggerFieldFor` resolves. -/
def pydantic_instance_to_swagger_instance (fields : List ModelField)
    (sc : SwaggerSchema) (inst : String → Option FVal) : List (String × FVal) :=
  fields.filterMap (fun f => (inst f.name).map (fun v => (swaggerFieldFor sc (aliasOrName f), v)))

/-- `_convert_swagger_environment_to_pydantic` (lines 16–64 of
`env_tools.py`) over an arbitrary declared schema: for every declared
field pull `getattr(wire, alias or name, None)` and substitute the
annotation's zero value for `None`.  The result binds every field to a
(non-null) value. -/
def convert_swagger_instance_to_pydantic (fields : List ModelField)
    (wire : List (String × FVal)) : List (String × FVal) :=
  fields.map (fun f =>
    (f.name,
      match wire.lookup (aliasOrName f) with
      | some v => v
      | none => f.ty.zero))

/-! ## Concrete fixtures used by the witnesses -/

/-- A concrete variable payload. -/
def sampleVariables : VariablesModel :=
  { description := some "db host", secret := some false,
    value := some "db.internal", isGlobal := some false }

/-- A concrete project with one cached variable. -/
def sampleStack : Stack :=
  { name := "shop", branch := some "master",
    cluster_variables_meta := [("DB_HOST", sampleVariables)] }

/-- A concrete environment. -/
def sampleCluster : AbstractCluster :=
  { id := "env-1", name := "prod", cluster_state := some "RUNNING", cloud := some "aws" }

/-- A session with both slots set. -/
def sampleSession : Session :=
  { currentProject := some sampleStack, currentCluster := some sampleCluster }

/-- A concrete remote API behaviour. -/
def sampleApi : Api :=
  { clusters := fun _ => [sampleCluster]
    clusterMetadata := fun _ => [{ cluster_id := "env-1", cluster_state := some "RUNNING" }]
    deployments := fun _ => { deployments := [] }
    deployment := fun _ rid => { id := rid }
    deploymentLogs := fun _ _ => []
    createDeployment := fun _ _ => { id := "dep-9" }
    resourceOverrides := fun _ _ _ => none
    postOverride := fun _ _ _ _ _ => some (Json.obj [])
    stack := fun n => { name := n } }

/-- A deployment request with only the release type set. -/
def reqOf (rt : String) : DeploymentRequestModel :=
  { release_type := rt }

/-! ## C1 — session precondition gates -/

/-- The differently-worded gate message of
`get_release_logs_of_current_environment` (env_tools.py lines 314–321):
it talks about a "cluster" where every other gated tool says
"environment". -/
def logsPrecondMsg : String :=
  "No current project or cluster is set. Please set a project using project_tools.use_project() and a cluster using env_tools.use_cluster()."

/-- Counterexample for C1 as stated: the named deployment tools are
environment-scoped but perform no presence check — on an empty session
a guard-passing `launch_environment` dies inside
`create_release_for_current_environment` at
`ClientUtils.get_current_cluster().id` with a raw `AttributeError`,
which is neither the uniform `McpError` nor the uniform `ValueError`
precondition failure; and `get_release_logs_of_current_environment`
gates with a message that differs from the uniform one. -/
theorem c1_counterexample_ungated_deployment_tools :
    launch_environment ({} : Session) sampleApi (reqOf "LAUNCH")
      = (.error (Err.attributeError "NoneType object has no attribute id"), [])
  ∧ Err.attributeError "NoneType object has no attribute id"
      ≠ Err.mcpError INVALID_REQUEST precondMsg
  ∧ Err.attributeError "NoneType object has no attribute id" ≠ Err.valueError precondMsg
  ∧ get_release_logs_of_current_environment ({} : Session) sampleApi "rel-1"
      = (.error (Err.mcpError INVALID_REQUEST logsPrecondMsg), [])
  ∧ logsPrecondMsg ≠ precondMsg := by
  refine ⟨rfl, by decide, by decide, rfl, by decide⟩

/-- C1 (amended): with the current project or environment unset, the
session-gated tools (`get_releases_of_current_environment`,
`get_release_details`, `get_resource_overrides`, `override_resource`,
`remove_resource_override`, `get_current_environment_details`) fail
with the uniform precondition message `precondMsg` and issue no remote
call; `get_release_logs_of_current_environment` gates identically
(no remote call) but with the differently-worded `logsPrecondMsg`; the
named deployment tools perform no presence check, and with the current
environment unset a request that passes their guard fails with a raw
`AttributeError` inside `create_release_for_current_environment` —
still before any remote call — instead of the uniform precondition
error. -/
theorem c1_precondition_gates_block_before_remote (s : Session) (api : Api)
    (release_id resource_type resource_name : String) (property_path : Option String)
    (override_data : Json) (sync : Bool)
    (h : is_current_cluster_and_project_set s = false) :
    get_releases_of_current_environment s api
      = (.error (Err.mcpError INVALID_REQUEST precondMsg), [])
  ∧ get_release_details s api release_id
      = (.error (Err.mcpError INVALID_REQUEST precondMsg), [])
  ∧ get_resource_overrides s api resource_type resource_name
      = (.error (Err.valueError precondMsg), [])
  ∧ override_resource s api resource_type resource_name override_data sync
      = (.error (Err.valueError precondMsg), [])
  ∧ remove_resource_override s api resource_type resource_name property_path sync
      = (.error (Err.valueError precondMsg), [])
  ∧ get_current_environment_details s api
      = (.error (Err.mcpError INVALID_REQUEST precondMsg), s, [])
  ∧ get_release_logs_of_current_environment s api release_id
      = (.error (Err.mcpError INVALID_REQUEST logsPrecondMsg), [])
  ∧ (s.currentCluster = none → ∀ p : DeploymentRequestModel,
      create_release_for_current_environment s api p
        = (.error (Err.attributeError "NoneType object has no attribute id"), []))
  ∧ (s.currentCluster = none → ∀ p : DeploymentRequestModel, p.release_type = "LAUNCH" →
      launch_environment s api p
        = (.error (Err.attributeError "NoneType object has no attribute id"), [])) := by
  obtain ⟨cp, cc⟩ := s
  cases cp <;> cases cc <;>
    first
      | refine ⟨rfl, rfl, rfl, rfl, rfl, rfl, rfl, fun hcc p => ?_, fun hcc p hrt => ?_⟩ <;>
          first
            | exact Option.noConfusion hcc
            | simp_all [launch_environment, create_release_for_current_environment]
      | simp [is_current_cluster_and_project_set] at h

/-- Witness for C1 (amended) at a concrete empty session. -/
theorem c1_witness :
    get_releases_of_current_environment ({} : Session) sampleApi
      = (.error (Err.mcpError INVALID_REQUEST precondMsg), [])
  ∧ get_release_details ({} : Session) sampleApi "rel-1"
      = (.error (Err.mcpError INVALID_REQUEST precondMsg), [])
  ∧ get_resource_overrides ({} : Session) sampleApi "service" "api"
      = (.error (Err.valueError precondMsg), [])
  ∧ override_resource ({} : Session) sampleApi "service" "api" Json.null true
      = (.error (Err.valueError precondMsg), [])
  ∧ remove_resource_override ({} : Session) sampleApi "service" "api" none true
      = (.error (Err.valueError precondMsg), [])
  ∧ get_current_environment_details ({} : Session) sampleApi
      = (.error (Err.mcpError INVALID_REQUEST precondMsg), ({} : Session), [])
  ∧ get_release_logs_of_current_environment ({} : Session) sampleApi "rel-1"
      = (.error (Err.mcpError INVALID_REQUEST logsPrecondMsg), [])
  ∧ create_release_for_current_environment ({} : Session) sampleApi (reqOf "LAUNCH")
      = (.error (Err.attributeError "NoneType object has no attribute id"), [])
  ∧ launch_environment ({} : Session) sampleApi (reqOf "LAUNCH")
      = (.error (Err.attributeError "NoneType object has no attribute id"), []) := by
  have H := c1_precondition_gates_block_before_remote {} sampleApi "rel-1" "service" "api"
    none Json.null true rfl
  exact ⟨H.1, H.2.1, H.2.2.1, H.2.2.2.1, H.2.2.2.2.1, H.2.2.2.2.2.1, H.2.2.2.2.2.2.1,
    H.2.2.2.2.2.2.2.1 rfl (reqOf "LAUNCH"), H.2.2.2.2.2.2.2.2 rfl (reqOf "LAUNCH") rfl⟩

/-! ## C2 — deployment guard tools -/

/-- C2: every named deployment tool rejects a request whose
`releaseType` is not its exact expected tag (or whose type-specific
required field is absent) with the corresponding "Release type must be
X" / missing-field precondition error and an empty remote-call list;
when the guard passes it delegates to
`create_release_for_current_environment` (with `destroy_environment`
additionally forcing `force_release = true`). -/
theorem c2_deployment_guards (s : Session) (api : Api) (p : DeploymentRequestModel) :
    (p.release_type ≠ "LAUNCH" →
      launch_environment s api p
        = (.error (Err.mcpError INVALID_REQUEST "Release type must be LAUNCH"), []))
  ∧ (p.release_type = "LAUNCH" →
      launch_environment s api p = create_release_for_current_environment s api p)
  ∧ (p.release_type ≠ "DESTROY" →
      destroy_environment s api p
        = (.error (Err.mcpError INVALID_REQUEST "Release type must be DESTROY"), []))
  ∧ (p.release_type = "DESTROY" →
      destroy_environment s api p
        = create_release_for_current_environment s api { p with force_release := some true })
  ∧ (p.release_type ≠ "HOTFIX_PLAN" →
      create_selective_release_plan_for_environment s api p
        = (.error (Err.mcpError INVALID_REQUEST "Release type must be HOTFIX_PLAN"), []))
  ∧ (p.release_type = "HOTFIX_PLAN" → p.hotfix_resources = none →
      create_selective_release_plan_for_environment s api p
        = (.error (Err.mcpError INVALID_REQUEST "Selective release resources must be provided"), []))
  ∧ (p.release_type = "HOTFIX_PLAN" → p.hotfix_resources ≠ none →
      create_selective_release_plan_for_environment s api p
        = create_release_for_current_environment s api p)
  ∧ (p.release_type ≠ "HOTFIX" →
      create_selective_release_for_environment s api p
        = (.error (Err.mcpError INVALID_REQUEST "Release type must be HOTFIX"), []))
  ∧ (p.release_type = "HOTFIX" → p.hotfix_resources = none →
      create_selective_release_for_environment s api p
        = (.error (Err.mcpError INVALID_REQUEST "Selective release resources must be provided"), []))
  ∧ (p.release_type = "HOTFIX" → p.hotfix_resources ≠ none →
      create_selective_release_for_environment s api p
        = create_release_for_current_environment s api p)
  ∧ (p.release_type ≠ "RELEASE" →
      create_full_release_for_environment s api p
        = (.error (Err.mcpError INVALID_REQUEST "Release type must be RELEASE"), []))
  ∧ (p.release_type = "RELEASE" →
      create_full_release_for_environment s api p
        = create_release_for_current_environment s api p)
  ∧ (p.release_type ≠ "FULL_PLAN" →
      create_full_release_plan_for_environment s api p
        = (.error (Err.mcpError INVALID_REQUEST "Release type must be FULL_PLAN"), []))
  ∧ (p.release_type = "FULL_PLAN" →
      create_full_release_plan_for_environment s api p
        = create_release_for_current_environment s api p)
  ∧ (p.release_type ≠ "CUSTOM" ∨ p.override_build_steps = none →
      create_custom_release_for_environment s api p
        = (.error (Err.mcpError INVALID_REQUEST
            "Release type must be CUSTOM and override build steps must be provided"), []))
  ∧ (p.release_type = "CUSTOM" → p.override_build_steps ≠ none →
      create_custom_release_for_environment s api p
        = create_release_for_current_environment s api p)
  ∧ (p.release_type ≠ "UNLOCK_STATE" ∨ p.lock_id = none →
      unlock_state_of_environment s api p
        = (.error (Err.mcpError INVALID_REQUEST
            "Release type must be UNLOCK_STATE and lockId must be provided"), []))
  ∧ (p.release_type = "UNLOCK_STATE" → p.lock_id ≠ none →
      unlock_state_of_environment s api p = create_release_for_current_environment s api p)
  ∧ (p.release_type ≠ "SCALE_UP" →
      scale_up_environment s api p
        = (.error (Err.mcpError INVALID_REQUEST "Release type must be SCALE_UP"), []))
  ∧ (p.release_type = "SCALE_UP" →
      scale_up_environment s api p = create_release_for_current_environment s api p)
  ∧ (p.release_type ≠ "SCALE_DOWN" →
      scale_down_environment s api p
        = (.error (Err.mcpError INVALID_REQUEST "Release type must be SCALE_DOWN"), []))
  ∧ (p.release_type = "SCALE_DOWN" →
      scale_down_environment s api p = create_release_for_current_environment s api p) := by
  refine ⟨fun h => ?_, fun h => ?_, fun h => ?_, fun h => ?_, fun h => ?_,
    fun h h2 => ?_, fun h h2 => ?_, fun h => ?_, fun h h2 => ?_, fun h h2 => ?_,
    fun h => ?_, fun h => ?_, fun h => ?_, fun h => ?_, fun h => ?_, fun h h2 => ?_,
    fun h => ?_, fun h h2 => ?_, fun h => ?_, fun h => ?_, fun h => ?_, fun h => ?_⟩ <;>
  simp_all [launch_environment, destroy_environment,
    create_selective_release_plan_for_environment, create_selective_release_for_environment,
    create_full_release_for_environment, create_full_release_plan_for_environment,
    create_custom_release_for_environment, unlock_state_of_environment,
    scale_up_environment, scale_down_environment]

/-- Witness for C2: each guard exercised at concrete requests (the
spec's own example — `launch` called with `releaseType="RELEASE"` —
included). -/
theorem c2_witness :
    launch_environment sampleSession sampleApi (reqOf "RELEASE")
      = (.error (Err.mcpError INVALID_REQUEST "Release type must be LAUNCH"), [])
  ∧ launch_environment sampleSession sampleApi (reqOf "LAUNCH")
      = create_release_for_current_environment sampleSession sampleApi (reqOf "LAUNCH")
  ∧ destroy_environment sampleSession sampleApi (reqOf "LAUNCH")
      = (.error (Err.mcpError INVALID_REQUEST "Release type must be DESTROY"), [])
  ∧ destroy_environment sampleSession sampleApi (reqOf "DESTROY")
      = create_release_for_current_environment sampleSession sampleApi
          { reqOf "DESTROY" with force_release := some true }
  ∧ create_selective_release_plan_for_environment sampleSession sampleApi (reqOf "RELEASE")
      = (.error (Err.mcpError INVALID_REQUEST "Release type must be HOTFIX_PLAN"), [])
  ∧ create_selective_release_plan_for_environment sampleSession sampleApi (reqOf "HOTFIX_PLAN")
      = (.error (Err.mcpError INVALID_REQUEST "Selective release resources must be provided"), [])
  ∧ create_selective_release_plan_for_environment sampleSession sampleApi
        { reqOf "HOTFIX_PLAN" with hotfix_resources := some [{ resource_type := "service", resource_name := "api" }] }
      = create_release_for_current_environment sampleSession sampleApi
          { reqOf "HOTFIX_PLAN" with hotfix_resources := some [{ resource_type := "service", resource_name := "api" }] }
  ∧ create_selective_release_for_environment sampleSession sampleApi (reqOf "RELEASE")
      = (.error (Err.mcpError INVALID_REQUEST "Release type must be HOTFIX"), [])
  ∧ create_selective_release_for_environment sampleSession sampleApi (reqOf "HOTFIX")
      = (.error (Err.mcpError INVALID_REQUEST "Selective release resources must be provided"), [])
  ∧ create_selective_release_for_environment sampleSession sampleApi
        { reqOf "HOTFIX" with hotfix_resources := some [{ resource_type := "service", resource_name := "api" }] }
      = create_release_for_current_environment sampleSession sampleApi
          { reqOf "HOTFIX" with hotfix_resources := some [{ resource_type := "service", resource_name := "api" }] }
  ∧ create_full_release_for_environment sampleSession sampleApi (reqOf "LAUNCH")
      = (.error (Err.mcpError INVALID_REQUEST "Release type must be RELEASE"), [])
  ∧ create_full_release_for_environment sampleSession sampleApi (reqOf "RELEASE")
      = create_release_for_current_environment sampleSession sampleApi (reqOf "RELEASE")
  ∧ create_full_release_plan_for_environment sampleSession sampleApi (reqOf "RELEASE")
      = (.error (Err.mcpError INVALID_REQUEST "Release type must be FULL_PLAN"), [])
  ∧ create_full_release_plan_for_environment sampleSession sampleApi (reqOf "FULL_PLAN")
      = create_release_for_current_environment sampleSession sampleApi (reqOf "FULL_PLAN")
  ∧ create_custom_release_for_environment sampleSession sampleApi (reqOf "CUSTOM")
      = (.error (Err.mcpError INVALID_REQUEST
          "Release type must be CUSTOM and override build steps must be provided"), [])
  ∧ create_custom_release_for_environment sampleSession sampleApi
        { reqOf "CUSTOM" with override_build_steps := some ["sleep 10"] }
      = create_release_for_current_environment sampleSession sampleApi
          { reqOf "CUSTOM" with override_build_steps := some ["sleep 10"] }
  ∧ unlock_state_of_environment sampleSession sampleApi (reqOf "UNLOCK_STATE")
      = (.error (Err.mcpError INVALID_REQUEST
          "Release type must be UNLOCK_STATE and lockId must be provided"), [])
  ∧ unlock_state_of_environment sampleSession sampleApi
        { reqOf "UNLOCK_STATE" with lock_id := some "lock-1" }
      = create_release_for_current_environment sampleSession sampleApi
          { reqOf "UNLOCK_STATE" with lock_id := some "lock-1" }
  ∧ scale_up_environment sampleSession sampleApi (reqOf "RELEASE")
      = (.error (Err.mcpError INVALID_REQUEST "Release type must be SCALE_UP"), [])
  ∧ scale_up_environment sampleSession sampleApi (reqOf "SCALE_UP")
      = create_release_for_current_environment sampleSession sampleApi (reqOf "SCALE_UP")
  ∧ scale_down_environment sampleSession sampleApi (reqOf "RELEASE")
      = (.error (Err.mcpError INVALID_REQUEST "Release type must be SCALE_DOWN"), [])
  ∧ scale_down_environment sampleSession sampleApi (reqOf "SCALE_DOWN")
      = create_release_for_current_environment sampleSession sampleApi (reqOf "SCALE_DOWN") := by
  refine ⟨?_, ?_, ?_, ?_, ?_, ?_, ?_, ?_, ?_, ?_, ?_, ?_, ?_, ?_, ?_, ?_, ?_, ?_, ?_, ?_, ?_, ?_⟩
  · exact (c2_deployment_guards sampleSession sampleApi (reqOf "RELEASE")).1 (by decide)
  · exact (c2_deployment_guards sampleSession sampleApi (reqOf "LAUNCH")).2.1 rfl
  · exact (c2_deployment_guards sampleSession sampleApi (reqOf "LAUNCH")).2.2.1 (by decide)
  · exact (c2_deployment_guards sampleSession sampleApi (reqOf "DESTROY")).2.2.2.1 rfl
  · exact (c2_deployment_guards sampleSession sampleApi (reqOf "RELEASE")).2.2.2.2.1 (by decide)
  · exact (c2_deployment_guards sampleSession sampleApi (reqOf "HOTFIX_PLAN")).2.2.2.2.2.1 rfl rfl
  · exact (c2_deployment_guards sampleSession sampleApi
      { reqOf "HOTFIX_PLAN" with hotfix_resources := some [{ resource_type := "service", resource_name := "api" }] }).2.2.2.2.2.2.1 rfl (by decide)
  · exact (c2_deployment_guards sampleSession sampleApi (reqOf "RELEASE")).2.2.2.2.2.2.2.1 (by decide)
  · exact (c2_deployment_guards sampleSession sampleApi (reqOf "HOTFIX")).2.2.2.2.2.2.2.2.1 rfl rfl
  · exact (c2_deployment_guards sampleSession sampleApi
      { reqOf "HOTFIX" with hotfix_resources := some [{ resource_type := "service", resource_name := "api" }] }).2.2.2.2.2.2.2.2.2.1 rfl (by decide)
  · exact (c2_deployment_guards sampleSession sampleApi (reqOf "LAUNCH")).2.2.2.2.2.2.2.2.2.2.1 (by decide)
  · exact (c2_deployment_guards sampleSession sampleApi (reqOf "RELEASE")).2.2.2.2.2.2.2.2.2.2.2.1 rfl
  · exact (c2_deployment_guards sampleSession sampleApi (reqOf "RELEASE")).2.2.2.2.2.2.2.2.2.2.2.2.1 (by decide)
  · exact (c2_deployment_guards sampleSession sampleApi (reqOf "FULL_PLAN")).2.2.2.2.2.2.2.2.2.2.2.2.2.1 rfl
  · exact (c2_deployment_guards sampleSession sampleApi (reqOf "CUSTOM")).2.2.2.2.2.2.2.2.2.2.2.2.2.2.1 (Or.inr rfl)
  · exact (c2_deployment_guards sampleSession sampleApi
      { reqOf "CUSTOM" with override_build_steps := some ["sleep 10"] }).2.2.2.2.2.2.2.2.2.2.2.2.2.2.2.1 rfl (by decide)
  · exact (c2_deployment_guards sampleSession sampleApi (reqOf "UNLOCK_STATE")).2.2.2.2.2.2.2.2.2.2.2.2.2.2.2.2.1 (Or.inr rfl)
  · exact (c2_deployment_guards sampleSession sampleApi
      { reqOf "UNLOCK_STATE" with lock_id := some "lock-1" }).2.2.2.2.2.2.2.2.2.2.2.2.2.2.2.2.2.1 rfl (by decide)
  · exact (c2_deployment_guards sampleSession sampleApi (reqOf "RELEASE")).2.2.2.2.2.2.2.2.2.2.2.2.2.2.2.2.2.2.1 (by decide)
  · exact (c2_deployment_guards sampleSession sampleApi (reqOf "SCALE_UP")).2.2.2.2.2.2.2.2.2.2.2.2.2.2.2.2.2.2.2.1 rfl
  · exact (c2_deployment_guards sampleSession sampleApi (reqOf "RELEASE")).2.2.2.2.2.2.2.2.2.2.2.2.2.2.2.2.2.2.2.2.1 (by decide)
  · exact (c2_deployment_guards sampleSession sampleApi (reqOf "SCALE_DOWN")).2.2.2.2.2.2.2.2.2.2.2.2.2.2.2.2.2.2.2.2.2 rfl

/-! ## C3 — model converter round trip -/

/-- Unfolding `pydantic_instance_to_swagger_instance` one declared
field at a time. -/
theorem pydantic_to_swagger_cons (g : ModelField) (gs : List ModelField)
    (sc : SwaggerSchema) (inst : String → Option FVal) :
    pydantic_instance_to_swagger_instance (g :: gs) sc inst
      = match inst g.name with
        | some v => (swaggerFieldFor sc (aliasOrName g), v)
            :: pydantic_instance_to_swagger_instance gs sc inst
        | none => pydantic_instance_to_swagger_instance gs sc inst := by
  unfold pydantic_instance_to_swagger_instance
  cases h : inst g.name <;> simp [List.filterMap_cons, h]

/-- `List.lookup` walks past an entry with a different key. -/
theorem lookup_cons_of_ne {β : Type} (k key : String) (v : β)
    (rest : List (String × β)) (h : (key == k) = false) :
    ((k, v) :: rest).lookup key = rest.lookup key := by
  simp [List.lookup, h]

/-- `List.lookup` finds the head entry. -/
theorem lookup_cons_self {β : Type} (k : String) (v : β) (rest : List (String × β)) :
    ((k, v) :: rest).lookup k = some v := by
  simp [List.lookup]

/-- Looking up a field name in an output built by mapping over the
declared fields finds that field's entry, provided field names are
distinct. -/
theorem lookup_name_map (F : ModelField → FVal) (fields : List ModelField)
    (f : ModelField) (hnd : (fields.map ModelField.name).Nodup) (hf : f ∈ fields) :
    (fields.map (fun g => (g.name, F g))).lookup f.name = some (F f) := by
  induction fields with
  | nil => cases hf
  | cons g gs ih =>
    simp only [List.map_cons, List.nodup_cons] at hnd
    rcases List.mem_cons.mp hf with rfl | hf2
    · exact lookup_cons_self f.name (F f) _
    · have hne : (f.name == g.name) = false := by
        simp only [beq_eq_false_iff_ne, ne_eq]
        intro e
        exact hnd.1 (e ▸ List.mem_map_of_mem ModelField.name hf2)
      rw [List.map_cons, lookup_cons_of_ne _ _ _ _ hne]
      exact ih hnd.2 hf2

/-- A key that is no declared field's wire alias is absent from the
wire instance `pydantic_instance_to_swagger_instance` builds. -/
theorem wire_lookup_none (sc : SwaggerSchema) (inst : String → Option FVal)
    (key : String) :
    ∀ gs : List ModelField,
      (∀ g ∈ gs, swaggerFieldFor sc (aliasOrName g) = aliasOrName g) →
      key ∉ gs.map aliasOrName →
      (pydantic_instance_to_swagger_instance gs sc inst).lookup key = none := by
  intro gs
  induction gs with
  | nil => intro _ _; rfl
  | cons g gs ih =>
    intro hcoh hkey
    simp only [List.map_cons, List.mem_cons, not_or] at hkey
    have hcohg := hcoh g (List.mem_cons_self g gs)
    have hrest : ∀ g' ∈ gs, swaggerFieldFor sc (aliasOrName g') = aliasOrName g' :=
      fun g' hg' => hcoh g' (List.mem_cons_of_mem g hg')
    rw [pydantic_to_swagger_cons]
    cases hinst : inst g.name with
    | none => exact ih hrest hkey.2
    | some v =>
      have hne : (key == swaggerFieldFor sc (aliasOrName g)) = false := by
        rw [hcohg]
        simp only [beq_eq_false_iff_ne, ne_eq]
        exact hkey.1
      rw [lookup_cons_of_ne _ _ _ _ hne]
      exact ih hrest hkey.2

/-- Looking up a declared field's wire alias in the wire instance
yields exactly the value explicitly set on the tool-facing model (or
nothing when the field was left unset). -/
theorem wire_lookup_eq (sc : SwaggerSchema) (inst : String → Option FVal)
    (f : ModelField) :
    ∀ fields : List ModelField,
      (∀ g ∈ fields, swaggerFieldFor sc (aliasOrName g) = aliasOrName g) →
      (fields.map aliasOrName).Nodup →
      f ∈ fields →
      (pydantic_instance_to_swagger_instance fields sc inst).lookup (aliasOrName f)
        = inst f.name := by
  intro fields
  induction fields with
  | nil => intro _ _ hf; cases hf
  | cons g gs ih =>
    intro hcoh hnd hf
    simp only [List.map_cons, List.nodup_cons] at hnd
    have hcohg := hcoh g (List.mem_cons_self g gs)
    have hrest : ∀ g' ∈ gs, swaggerFieldFor sc (aliasOrName g') = aliasOrName g' :=
      fun g' hg' => hcoh g' (List.mem_cons_of_mem g hg')
    rw [pydantic_to_swagger_cons]
    rcases List.mem_cons.mp hf with rfl | hf2
    · cases hinst : inst f.name with
      | some v => rw [hcohg]; exact lookup_cons_self _ _ _
      | none => exact wire_lookup_none sc inst _ gs hrest hnd.1
    · have hne : (aliasOrName f == swaggerFieldFor sc (aliasOrName g)) = false := by
        rw [hcohg]
        simp only [beq_eq_false_iff_ne, ne_eq]
        intro e
        exact hnd.1 (e ▸ List.mem_map_of_mem aliasOrName hf2)
      cases hinst : inst g.name with
      | some v =>
        rw [lookup_cons_of_ne _ _ _ _ hne]
        exact ih hrest hnd.2 hf2
      | none => exact ih hrest hnd.2 hf2

/-- C3: round trip of the model converter.  Converting a tool-facing
model to the wire model (`pydantic_instance_to_swagger_instance`,
which transfers only explicitly-set fields under the wire schema's
resolved attribute) and back (`convert_swagger_instance_to_pydantic`,
which pulls every declared field by its alias and zero-fills absent
values) binds every declared field to a non-null value: the explicitly
set value when there was one, the annotation type's zero value
otherwise.  The hypothesis `hcoh` is modelled from the spec: the
generated pydantic/swagger schemas are not under `src/`, and spec §4.4
states that the alias of each tool-facing field targets the wire
attribute the value is stored under. -/
theorem c3_model_converter_round_trip (fields : List ModelField) (sc : SwaggerSchema)
    (inst : String → Option FVal) (f : ModelField)
    (hcoh : ∀ g ∈ fields, swaggerFieldFor sc (aliasOrName g) = aliasOrName g)
    (hndAlias : (fields.map aliasOrName).Nodup)
    (hndName : (fields.map ModelField.name).Nodup)
    (hf : f ∈ fields) :
    (convert_swagger_instance_to_pydantic fields
        (pydantic_instance_to_swagger_instance fields sc inst)).lookup f.name
      = some (match inst f.name with
              | some v => v
              | none => f.ty.zero) := by
  unfold convert_swagger_instance_to_pydantic
  rw [lookup_name_map _ fields f hndName hf,
    wire_lookup_eq sc inst f fields hcoh hndAlias hf]

/-- The declared fields of the concrete witness schema: two aliased
fields and two alias-free ones, covering several annotation types. -/
def clusterFields : List ModelField :=
  [ { name := "id" },
    { name := "cluster_state", wireAlias := some "clusterState" },
    { name := "spot", ty := FTy.boolean },
    { name := "node_count", ty := FTy.int, wireAlias := some "nodeCount" } ]

/-- Reflection data of the witness wire schema. -/
def clusterSwaggerSchema : SwaggerSchema :=
  { attribute_map := [], swagger_types := ["id", "clusterState", "spot", "nodeCount"] }

/-- A tool-facing instance with two fields explicitly set. -/
def sampleInst : String → Option FVal := fun n =>
  if n = "id" then some (FVal.vstr "env-1")
  else if n = "cluster_state" then some (FVal.vstr "RUNNING")
  else none

/-- Witness for C3: on the concrete schema a set field comes back as
set and an unset boolean surfaces as `false`, not null. -/
theorem c3_witness :
    (convert_swagger_instance_to_pydantic clusterFields
        (pydantic_instance_to_swagger_instance clusterFields clusterSwaggerSchema
          sampleInst)).lookup "cluster_state" = some (FVal.vstr "RUNNING")
  ∧ (convert_swagger_instance_to_pydantic clusterFields
        (pydantic_instance_to_swagger_instance clusterFields clusterSwaggerSchema
          sampleInst)).lookup "spot" = some (FVal.vbool false) := by
  constructor
  · exact c3_model_converter_round_trip clusterFields clusterSwaggerSchema sampleInst
      { name := "cluster_state", wireAlias := some "clusterState" }
      (by decide) (by decide) (by decide) (by decide)
  · exact c3_model_converter_round_trip clusterFields clusterSwaggerSchema sampleInst
      { name := "spot", ty := FTy.boolean }
      (by decide) (by decide) (by decide) (by decide)

/-! ## C4 — profile merge precedence -/

/-- Counterexample for C4 as stated: `CONTROL_PLANE_URL` and
`FACETS_USERNAME` are explicitly set in the environment and the token
is missing, yet the resolved configuration carries the credentials
file's URL and username — the file value, not the environment value,
takes precedence (`config.get(profile, key, fallback=envValue)` uses
the environment value only as a fallback). -/
theorem c4_counterexample_file_overrides_env :
    resolve_credentials
      { profile := "team", cp_url := "https://env.example.com",
        username := "env-user", token := "" }
      { sections := [("team",
          { control_plane_url := some "https://file.example.com",
            username := some "file-user", token := some "file-token" })] }
      = .ok ("https://file.example.com", "file-user", "file-token")
  ∧ ("https://file.example.com" : String) ≠ "https://env.example.com" := by
  exact ⟨rfl, by decide⟩

/-- C4 (amended): when a profile name is given and any of
{URL, USERNAME, TOKEN} is missing from the environment, the profile's
section fills each of the three fields that is present in the
credentials file, overriding the environment value; the environment
value survives only for keys the file section omits. -/
theorem c4_profile_merge_file_precedence (env : EnvVars) (file : CredFile)
    (sec : CredSection)
    (hprof : env.profile ≠ "")
    (hmiss : ¬(env.cp_url ≠ "" ∧ env.username ≠ "" ∧ env.token ≠ ""))
    (hsec : file.sections.lookup env.profile = some sec) :
    resolve_credentials env file
      = .ok (sec.control_plane_url.getD env.cp_url,
             sec.username.getD env.username,
             sec.token.getD env.token) := by
  unfold resolve_credentials
  rw [if_pos ⟨hprof, hmiss⟩, hsec]

/-- Witness for C4 (amended) at the counterexample's concrete input
plus a section omitting the username (environment fallback kept). -/
theorem c4_witness :
    resolve_credentials
      { profile := "team", cp_url := "", username := "env-user", token := "" }
      { sections := [("team",
          { control_plane_url := some "https://file.example.com",
            token := some "file-token" })] }
      = .ok ("https://file.example.com", "env-user", "file-token") :=
  c4_profile_merge_file_precedence
    { profile := "team", cp_url := "", username := "env-user", token := "" }
    { sections := [("team",
        { control_plane_url := some "https://file.example.com",
          token := some "file-token" })] }
    { control_plane_url := some "https://file.example.com",
      token := some "file-token" }
    (by decide) (by decide) rfl

/-! ## C5 — incomplete configuration constructs no client -/

/-- C5: whenever the credentials resolved after the profile merge still
have an empty URL, username or token, `initialize_config` fails with
the configuration error, leaves the process-wide client configuration
untouched, and — since at process start no configuration is set —
`get_client` on the resulting state still fails: no client is ever
constructed. -/
theorem c5_incomplete_config_fails_no_client (st : ClientState) (env : EnvVars)
    (file : CredFile) (u n t : String)
    (hres : resolve_credentials env file = .ok (u, n, t))
    (hempty : u = "" ∨ n = "" ∨ t = "")
    (hstart : st = {}) :
    (initialize_config st env file).2
      = .error (Err.valueError "Control plane URL, username, and token are required.")
  ∧ (initialize_config st env file).1 = st
  ∧ get_client (initialize_config st env file).1
      = .error (Err.valueError "Client configuration not set. Call set_client_config first.") := by
  have hcond : ¬(u ≠ "" ∧ n ≠ "" ∧ t ≠ "") := by
    rcases hempty with h | h | h <;> simp [h]
  have heq : initialize_config st env file
      = (st, .error (Err.valueError "Control plane URL, username, and token are required.")) := by
    unfold initialize_config
    rw [hres]
    simp only [if_pos hcond]
  refine ⟨by rw [heq], by rw [heq], ?_⟩
  rw [heq, hstart]
  rfl

/-- Witness for C5: a configuration with only the URL set. -/
theorem c5_witness :
    (initialize_config {} { cp_url := "https://cp.example.com" } {}).2
      = .error (Err.valueError "Control plane URL, username, and token are required.")
  ∧ (initialize_config {} { cp_url := "https://cp.example.com" } {}).1 = ({} : ClientState)
  ∧ get_client (initialize_config {} { cp_url := "https://cp.example.com" } {}).1
      = .error (Err.valueError "Client configuration not set. Call set_client_config first.") :=
  c5_incomplete_config_fails_no_client {} { cp_url := "https://cp.example.com" } {}
    "https://cp.example.com" "" "" rfl (Or.inr (Or.inl rfl)) rfl

/-! ## C6 — override removal by dotted path -/

/-- The spec's example overrides document. -/
def overridesDoc : Json :=
  Json.obj [("spec", Json.obj [("replicas", Json.num 3), ("cpu", Json.str "500m")])]

/-- A document whose only chain of keys is the removed path. -/
def collapseDoc : Json :=
  Json.obj [("spec", Json.obj [("replicas", Json.num 3)])]

/-- A document with an unrelated sibling next to the removed chain. -/
def siblingDoc : Json :=
  Json.obj [("spec", Json.obj [("cpu", Json.str "500m")]), ("other", Json.num 1)]

/-- An API whose override store returns a fixed document. -/
def apiWithOverrides (doc : Json) : Api :=
  { sampleApi with resourceOverrides := fun _ _ _ => some doc }

/-- Counterexample for C6 as stated: in `siblingDoc`, `"cpu"` is the
last remaining key under its parent `"spec"`, yet removing
`"spec.cpu"` does not collapse the document to empty and does not
trigger full override deletion — the sibling `"other"` survives and
the partial document is written back. -/
theorem c6_counterexample_sibling_keys :
    remove_override_decision siblingDoc "spec.cpu"
      = .writeBack (Json.obj [("other", Json.num 1)])
  ∧ remove_override_decision siblingDoc "spec.cpu" ≠ .deleteAll := by
  refine ⟨rfl, ?_⟩
  intro h
  rw [show remove_override_decision siblingDoc "spec.cpu"
      = .writeBack (Json.obj [("other", Json.num 1)]) from rfl] at h
  cases h

/-- C6 (amended): removing `"spec.replicas"` from
`{"spec": {"replicas": 3, "cpu": "500m"}}` yields
`{"spec": {"cpu": "500m"}}`, which is written back; removal cascades
deletion of ancestor objects along the path that become empty, and
full override deletion (posting a `None` overrides payload) is
triggered exactly when the resulting document is empty — as in
`collapseDoc` — otherwise the partial document is written back. -/
theorem c6_override_removal_cascade (ov : Json) (pp : String) (result : Json)
    (h : removeAtPath ov (splitPath pp) = some result) :
    remove_override_decision overridesDoc "spec.replicas"
      = .writeBack (Json.obj [("spec", Json.obj [("cpu", Json.str "500m")])])
  ∧ remove_override_decision collapseDoc "spec.replicas" = .deleteAll
  ∧ (remove_override_decision ov pp = .deleteAll ↔ result.falsy = true)
  ∧ remove_resource_override sampleSession (apiWithOverrides overridesDoc)
        "service" "api" (some "spec.replicas") true
      = (.ok (appliedOverridesMsg "api" "service" "prod"),
         [ApiCall.getResourceOverrideObject "env-1" "api" "service",
          ApiCall.postResourceOverrideObject "env-1" "api" "service"
            (some (Json.obj [("spec", Json.obj [("cpu", Json.str "500m")])])) true])
  ∧ remove_resource_override sampleSession (apiWithOverrides collapseDoc)
        "service" "api" (some "spec.replicas") true
      = (.ok (removedAllBecauseEmptyMsg "api" "service" "prod" "spec.replicas"),
         [ApiCall.getResourceOverrideObject "env-1" "api" "service",
          ApiCall.postResourceOverrideObject "env-1" "api" "service" none true]) := by
  refine ⟨rfl, rfl, ?_, rfl, rfl⟩
  simp only [remove_override_decision, h]
  cases hf : result.falsy <;> simp [hf]

/-- Witness for C6 at the collapsing document. -/
theorem c6_witness :
    remove_override_decision collapseDoc "spec.replicas" = .deleteAll
  ∧ (remove_override_decision collapseDoc "spec.replicas" = .deleteAll
      ↔ (Json.obj []).falsy = true) :=
  ⟨(c6_override_removal_cascade collapseDoc "spec.replicas" (Json.obj []) rfl).2.1,
   (c6_override_removal_cascade collapseDoc "spec.replicas" (Json.obj []) rfl).2.2.1⟩

/-! ## C7 — variable batch guards and cache refresh -/

/-- C7: with a current project set, `create_variables` fails naming
exactly the submitted names already present in the cached mapping and
issues no remote call; `update_variables`/`delete_variables` fail
analogously naming the submitted names absent from the cached mapping;
and each successful mutation issues the mutation call followed by a
project refetch whose result replaces the cached project. -/
theorem c7_variable_batch_guards_and_refresh (s : Session) (api : Api) (curr : Stack)
    (vars : List (String × VariablesModel)) (names : List String)
    (hp : s.currentProject = some curr) :
    (((vars.map Prod.fst).filter
        (fun n => (curr.cluster_variables_meta.map Prod.fst).contains n)).isEmpty = false →
      create_variables s api vars
        = (.error (Err.valueError ("The following variables already exist: "
            ++ String.intercalate ", " ((vars.map Prod.fst).filter
                (fun n => (curr.cluster_variables_meta.map Prod.fst).contains n)))), s, []))
  ∧ (((vars.map Prod.fst).filter
        (fun n => (curr.cluster_variables_meta.map Prod.fst).contains n)).isEmpty = true →
      create_variables s api vars
        = (.ok (), set_current_project s (api.stack curr.name),
           [ApiCall.addVariables curr.name (vars.map Prod.fst), ApiCall.getStack curr.name]))
  ∧ (((vars.map Prod.fst).filter
        (fun n => !(curr.cluster_variables_meta.map Prod.fst).contains n)).isEmpty = false →
      update_variables s api vars
        = (.error (Err.valueError ("The following variables do not exist: "
            ++ String.intercalate ", " ((vars.map Prod.fst).filter
                (fun n => !(curr.cluster_variables_meta.map Prod.fst).contains n)))), s, []))
  ∧ (((vars.map Prod.fst).filter
        (fun n => !(curr.cluster_variables_meta.map Prod.fst).contains n)).isEmpty = true →
      update_variables s api vars
        = (.ok (), set_current_project s (api.stack curr.name),
           [ApiCall.updateVariables curr.name (vars.map Prod.fst), ApiCall.getStack curr.name]))
  ∧ ((names.filter
        (fun n => !(curr.cluster_variables_meta.map Prod.fst).contains n)).isEmpty = false →
      delete_variables s api names
        = (.error (Err.valueError ("The following variables do not exist: "
            ++ String.intercalate ", " (names.filter
                (fun n => !(curr.cluster_variables_meta.map Prod.fst).contains n)))), s, []))
  ∧ ((names.filter
        (fun n => !(curr.cluster_variables_meta.map Prod.fst).contains n)).isEmpty = true →
      delete_variables s api names
        = (.ok (), set_current_project s (api.stack curr.name),
           [ApiCall.deleteVariables curr.name names, ApiCall.getStack curr.name])) := by
  refine ⟨fun h => ?_, fun h => ?_, fun h => ?_, fun h => ?_, fun h => ?_, fun h => ?_⟩
  · simp only [create_variables, hp]
    rw [if_neg (by rw [h]; decide)]
  · simp only [create_variables, hp]
    rw [if_pos h]
  · simp only [update_variables, hp]
    rw [if_neg (by rw [h]; decide)]
  · simp only [update_variables, hp]
    rw [if_pos h]
  · simp only [delete_variables, hp]
    rw [if_neg (by rw [h]; decide)]
  · simp only [delete_variables, hp]
    rw [if_pos h]

/-- Witness for C7: creating `DB_HOST` (already cached on
`sampleStack`) fails naming `DB_HOST` with no remote call; creating a
fresh `API_KEY` succeeds and refreshes the cached project; deleting an
absent `MISSING` fails naming it. -/
theorem c7_witness :
    create_variables sampleSession sampleApi [("DB_HOST", sampleVariables)]
      = (.error (Err.valueError "The following variables already exist: DB_HOST"),
         sampleSession, [])
  ∧ create_variables sampleSession sampleApi [("API_KEY", sampleVariables)]
      = (.ok (), set_current_project sampleSession (sampleApi.stack "shop"),
         [ApiCall.addVariables "shop" ["API_KEY"], ApiCall.getStack "shop"])
  ∧ delete_variables sampleSession sampleApi ["MISSING"]
      = (.error (Err.valueError "The following variables do not exist: MISSING"),
         sampleSession, []) := by
  refine ⟨?_, ?_, ?_⟩
  · exact (c7_variable_batch_guards_and_refresh sampleSession sampleApi sampleStack
      [("DB_HOST", sampleVariables)] [] rfl).1 (by decide)
  · exact (c7_variable_batch_guards_and_refresh sampleSession sampleApi sampleStack
      [("API_KEY", sampleVariables)] [] rfl).2.1 (by decide)
  · exact (c7_variable_batch_guards_and_refresh sampleSession sampleApi sampleStack
      [] ["MISSING"] rfl).2.2.2.2.1 (by decide)

/-! ## C8 — environment details state merge -/

/-- C8: with a current project and environment set and the current id
present in the refetched environment list, `get_current_environment_details`
issues exactly the refetch call and the metadata call, and returns the
refetched environment converted to the tool-facing model with its
`cluster_state` taken from the first metadata entry whose id matches;
when no metadata entry matches, the state is left at the refetched
environment's prior value (zero-filled by the converter), and in both
cases every other field comes unchanged from the refetched environment. -/
theorem c8_environment_details_state_merge (s : Session) (api : Api)
    (project : Stack) (current env : AbstractCluster)
    (hp : s.currentProject = some project) (hc : s.currentCluster = some current)
    (hfind : (api.clusters project.name).find? (fun e => e.id == current.id) = some env) :
    (get_current_environment_details s api).2.2
      = [ApiCall.getClusters project.name, ApiCall.getClusterMetadata project.name]
  ∧ (∀ md, (api.clusterMetadata project.name).find? (fun m => m.cluster_id == env.id) = some md →
      (get_current_environment_details s api).1
        = .ok (convert_swagger_environment_to_pydantic
            { env with cluster_state := md.cluster_state }))
  ∧ ((api.clusterMetadata project.name).find? (fun m => m.cluster_id == env.id) = none →
      (get_current_environment_details s api).1
        = .ok (convert_swagger_environment_to_pydantic env)) := by
  refine ⟨?_, fun md hmd => ?_, fun hmd => ?_⟩
  · cases hmeta : (api.clusterMetadata project.name).find? (fun m => m.cluster_id == env.id) <;>
      simp only [get_current_environment_details, hp, hc, hfind, hmeta]
  · simp only [get_current_environment_details, hp, hc, hfind, hmd]
  · simp only [get_current_environment_details, hp, hc, hfind, hmd]

/-- Witness for C8: with the sample fixtures the state is populated
from the matching metadata entry; with an api whose metadata list has
no matching id, the refetched environment's own state survives. -/
theorem c8_witness :
    (get_current_environment_details sampleSession sampleApi).1
      = .ok (convert_swagger_environment_to_pydantic
          { sampleCluster with cluster_state := some "RUNNING" })
  ∧ (get_current_environment_details sampleSession
        { sampleApi with clusterMetadata := fun _ => [] }).1
      = .ok (convert_swagger_environment_to_pydantic sampleCluster) := by
  refine ⟨?_, ?_⟩
  · exact (c8_environment_details_state_merge sampleSession sampleApi sampleStack
      sampleCluster sampleCluster rfl rfl (by decide)).2.1
      { cluster_id := "env-1", cluster_state := some "RUNNING" } (by decide)
  · exact (c8_environment_details_state_merge sampleSession
      { sampleApi with clusterMetadata := fun _ => [] } sampleStack
      sampleCluster sampleCluster rfl rfl (by decide)).2.2 rfl

/-! ## C9 — frame of the wire deployment request -/

/-- A concrete unlock request fixture. -/
def pUnlock : DeploymentRequestModel :=
  { release_type := "UNLOCK_STATE", lock_id := some "lock-1" }

/-- C9: the wire request built by the generic release creation carries
exactly `releaseType`, `forceRelease`, `allowDestroy`, `withRefresh`,
`hotfixResources` and `overrideBuildSteps` from the caller's
properties — in particular `lock_id` stays at its wire default `none`
for every request, including an `unlock_state_of_environment` call
whose guard passes. -/
theorem c9_wire_request_frame (s : Session) (api : Api) (cluster : AbstractCluster)
    (p : DeploymentRequestModel) :
    (build_swagger_request p).lock_id = none
  ∧ (build_swagger_request p).release_type = some p.release_type
  ∧ (build_swagger_request p).force_release = p.force_release
  ∧ (build_swagger_request p).allow_destroy = p.allow_destroy
  ∧ (build_swagger_request p).with_refresh = p.with_refresh
  ∧ (build_swagger_request p).hotfix_resources = p.hotfix_resources
  ∧ (build_swagger_request p).override_build_steps = some (p.override_build_steps.getD [])
  ∧ (p.release_type = "UNLOCK_STATE" → p.lock_id ≠ none → s.currentCluster = some cluster →
      unlock_state_of_environment s api p
        = (.ok (api.createDeployment cluster.id (build_swagger_request p)).id,
           [ApiCall.createDeployment cluster.id (build_swagger_request p)])) := by
  obtain ⟨rt, fr, ad, wr, hr, obs, lid⟩ := p
  refine ⟨?_, ?_, ?_, ?_, ?_, ?_, ?_, fun h1 h2 h3 => ?_⟩ <;>
    cases ad <;> cases wr <;> cases hr <;> cases obs <;>
      simp_all [build_swagger_request, unlock_state_of_environment,
        create_release_for_current_environment]

/-- Witness for C9 at a concrete passing unlock call: the guard
accepted the `lock_id`, yet the wire request posts with `lock_id`
at its default. -/
theorem c9_witness :
    (build_swagger_request pUnlock).lock_id = none
  ∧ unlock_state_of_environment sampleSession sampleApi pUnlock
      = (.ok (sampleApi.createDeployment "env-1" (build_swagger_request pUnlock)).id,
         [ApiCall.createDeployment "env-1" (build_swagger_request pUnlock)]) :=
  ⟨(c9_wire_request_frame sampleSession sampleApi sampleCluster pUnlock).1,
   (c9_wire_request_frame sampleSession sampleApi sampleCluster pUnlock).2.2.2.2.2.2.2
     rfl (by decide) rfl⟩

/-! ## C10 — latest release is unsafe on an empty deployment list -/

/-- C10: `get_latest_release_of_current_environment` returns the last
element of the current environment's deployments list; when that list
is empty it fails with the out-of-range index error rather than
returning an empty result — unlike
`get_active_releases_of_current_environment`, which (on a running
environment) returns `.ok []` for an empty deployments list. -/
theorem c10_latest_release_empty_index_error (s : Session) (api : Api)
    (project : Stack) (cluster env : AbstractCluster) (md : ClusterMetadata)
    (hp : s.currentProject = some project) (hc : s.currentCluster = some cluster) :
    ((api.deployments cluster.id).deployments = [] →
      get_latest_release_of_current_environment s api
        = (.error (Err.indexError "list index out of range"),
           [ApiCall.getDeployments cluster.id]))
  ∧ (∀ ds d, (api.deployments cluster.id).deployments = ds ++ [d] →
      get_latest_release_of_current_environment s api
        = (.ok d, [ApiCall.getDeployments cluster.id]))
  ∧ ((api.clusters project.name).find? (fun e => e.id == cluster.id) = some env →
     (api.clusterMetadata project.name).find? (fun m => m.cluster_id == env.id) = some md →
     md.cluster_state = some "RUNNING" →
     (api.deployments env.id).deployments = [] →
      (get_active_releases_of_current_environment s api).1 = .ok []) := by
  refine ⟨fun hde => ?_, fun ds d hde => ?_, fun hfind hmd hstate hde => ?_⟩
  · simp only [get_latest_release_of_current_environment,
      get_releases_of_current_environment, hp, hc, hde]
    rfl
  · simp only [get_latest_release_of_current_environment,
      get_releases_of_current_environment, hp, hc, hde, List.getLast?_concat]
  · have hdet : get_current_environment_details s api
        = (.ok (convert_swagger_environment_to_pydantic
              { env with cluster_state := some "RUNNING" }),
           set_current_cluster s { env with cluster_state := some "RUNNING" },
           [ApiCall.getClusters project.name, ApiCall.getClusterMetadata project.name]) := by
      simp only [get_current_environment_details, hp, hc, hfind, hmd, hstate]
    simp only [get_active_releases_of_current_environment, hdet,
      convert_swagger_environment_to_pydantic]
    rw [if_neg (by simp)]
    simp only [get_releases_of_current_environment, set_current_cluster, hp, hc, hde]
    simp [hde]

/-- Witness for C10: the sample environment is running and has an
empty deployments list; the latest-release query fails with the index
error while the active-releases query returns the empty list. -/
theorem c10_witness :
    get_latest_release_of_current_environment sampleSession sampleApi
      = (.error (Err.indexError "list index out of range"), [ApiCall.getDeployments "env-1"])
  ∧ (get_active_releases_of_current_environment sampleSession sampleApi).1 = .ok [] := by
  refine ⟨?_, ?_⟩
  · exact (c10_latest_release_empty_index_error sampleSession sampleApi sampleStack
      sampleCluster sampleCluster { cluster_id := "env-1", cluster_state := some "RUNNING" }
      rfl rfl).1 rfl
  · exact (c10_latest_release_empty_index_error sampleSession sampleApi sampleStack
      sampleCluster sampleCluster { cluster_id := "env-1", cluster_state := some "RUNNING" }
      rfl rfl).2.2 (by decide) (by decide) rfl rfl
